import Mathlib

/-!
Verification development for the "Pothpath" e-library repository.

The repository is a client-rendered web application over a hosted
database/storage backend.  The definitions below are a shallow embedding of
its non-presentational core, translated from the source files:

* `src/src/app/library/page.tsx` — the public library listing
  (`PAGE_SIZE`, `fetchBooks`, `toggleFavorite`, `toggleBookmark`,
  the localStorage persistence effects, and the query construction);
* `src/unnamed/part_001` — the upload page (`onFileInput`, `handleUpload`);
* `src/src/components/admin/BooksTab.tsx` — the admin moderation component
  (`updateStatus`, `toggleBookVisibility`).

Timestamps are modelled as natural numbers, backend row ids and user ids as
strings.  The backend data store is modelled as a list of rows; the query
builder's filter/order/range pipeline is applied to that list exactly as the
source assembles it.  Failures of a backend call are modelled by an explicit
boolean/`FetchResult` input, since whether a network call fails is decided by
the environment, not by the client code.
-/

/-- A row of the `books` table, with the columns the client code reads or
writes (see the `BookRow`/`Book` types in the source and the SQL schema). -/
structure Book where
  id : String
  title : String := ""
  author : String := ""
  description : Option String := none
  file_url : String := ""
  upload_at : Nat := 0
  file_size_bytes : Option Nat := none
  download_count : Nat := 0
  is_public : Bool := true
  genre_id : String := ""
  status : String := "pending"
  approved_at : Option Nat := none
  updated_at : Nat := 0
  upload_by : String := ""
deriving Repr, DecidableEq

/-! ## Public library listing (`src/src/app/library/page.tsx`) -/

/-- `const PAGE_SIZE = 12` (line 39). -/
def PAGE_SIZE : Nat := 12

/-- The sort keys of the library page:
`useState<"newest" | "oldest" | "az" | "popular">`. -/
inductive SortKey where
  | newest
  | oldest
  | az
  | popular
deriving Repr, DecidableEq

/-- The values of the sort `<select>` options on the library page
(lines 307–310): `newest`, `oldest`, `az` and `popular` are all offered. -/
def sortOptions : List String := ["newest", "oldest", "az", "popular"]

/-- JavaScript `String.prototype.trim()`: strip whitespace from both ends
(modelled on character lists so that it evaluates by kernel reduction). -/
def jsTrim (s : String) : String :=
  String.mk (((s.toList.dropWhile Char.isWhitespace).reverse.dropWhile
    Char.isWhitespace).reverse)

/-- Whether `pat` occurs at the start of `s` (on character lists). -/
def prefChars : List Char → List Char → Bool
  | [], _ => true
  | _ :: _, [] => false
  | a :: as, b :: bs => a == b && prefChars as bs

/-- Whether `pat` occurs somewhere inside `s` (on character lists). -/
def subChars (pat : List Char) : List Char → Bool
  | [] => prefChars pat []
  | c :: rest => prefChars pat (c :: rest) || subChars pat rest

/-- Case-insensitive substring test: the semantics of the backend's
`ilike '%term%'` pattern match used by the search filter. -/
def containsCI (s pat : String) : Bool :=
  subChars (pat.toList.map Char.toLower) (s.toList.map Char.toLower)

/-- The search disjunction
`title.ilike.%term%,author.ilike.%term%,description.ilike.%term%`
(library page line 131).  A SQL `ilike` on a NULL description is not a match. -/
def matchesSearch (term : String) (b : Book) : Bool :=
  containsCI b.title term || containsCI b.author term ||
    (match b.description with
     | some d => containsCI d term
     | none => false)

/-- The filter part of the library query (lines 122–132): the base filter
`status = 'approved' AND is_public = true`, then the genre filter when a
genre is selected (`if (genreId)`), then the search disjunction when the
trimmed search text is non-empty (`if (search.trim())`). -/
def filteredBooks (db : List Book) (genreId search : String) : List Book :=
  let q1 := db.filter (fun b => b.status == "approved" && b.is_public)
  let q2 := if genreId ≠ "" then q1.filter (fun b => b.genre_id == genreId) else q1
  let q3 := if jsTrim search ≠ "" then q2.filter (matchesSearch (jsTrim search)) else q2
  q3

/-- The order clause chosen by the `switch (sort)` of the library page
(lines 134–145), as executed by the backend: `newest` orders by
`upload_at` descending, `oldest` ascending, `az` by title ascending, and
`popular` matches no case, so no order clause is attached and the rows are
returned as they are. -/
def applyOrder : SortKey → List Book → List Book
  | SortKey.newest, l => l.insertionSort (fun a b => b.upload_at ≤ a.upload_at)
  | SortKey.oldest, l => l.insertionSort (fun a b => a.upload_at ≤ b.upload_at)
  | SortKey.az, l => l.insertionSort (fun a b => a.title ≤ b.title)
  | SortKey.popular, l => l

/-- The full library query of `fetchBooks` before the range is applied:
filters, then the order clause. -/
def booksQuery (db : List Book) (genreId search : String) (sort : SortKey) : List Book :=
  applyOrder sort (filteredBooks db genreId search)

/-- The component state that `fetchBooks` updates: the accumulated rows and
the `hasMore` flag. -/
structure LibState where
  books : List Book
  hasMore : Bool
deriving Repr, DecidableEq

/-- The outcome of the awaited `query.range(from, to)` call:
either `{data, count}` or an error. -/
inductive FetchResult where
  | ok (data : List Book) (count : Option Nat)
  | err (msg : String)
deriving Repr, DecidableEq

/-- The state update performed by `fetchBooks` (library page lines 112–170)
once the range query has resolved to `res`.  On success the new rows replace
(`reset`) or are appended to the current list, and `hasMore` compares the new
length against the exact count when one is reported (else against
`PAGE_SIZE`).  On error the `catch` block empties the list when `reset` holds
and sets `hasMore` to `false`; a non-reset failure leaves the list as it was. -/
def fetchBooksApply (res : FetchResult) (reset : Bool) (st : LibState) : LibState :=
  match res with
  | FetchResult.ok data count =>
      { books := if reset then data else st.books ++ data
        hasMore :=
          match count with
          | some c => decide ((if reset then data.length else st.books.length + data.length) < c)
          | none => data.length == PAGE_SIZE }
  | FetchResult.err _ =>
      { books := if reset then [] else st.books, hasMore := false }

/-- The backend's `range(start, stop)` (inclusive bounds) on the rows the
query selects, together with the exact count requested by
`{ count: "exact" }`. -/
def rangeQuery (server : List Book) (start stop : Nat) : List Book × Option Nat :=
  ((server.drop start).take (stop + 1 - start), some server.length)

/-- One invocation of `fetchBooks(reset)`: the offsets are
`from = reset ? 0 : books.length` and `to = from + PAGE_SIZE - 1`
(lines 147–150); `server` is the filtered, ordered row set the query
selects, and `fail` tells whether the awaited call throws. -/
def fetchBooks (server : List Book) (fail reset : Bool) (st : LibState) : LibState :=
  if fail then fetchBooksApply (FetchResult.err "fetch failed") reset st
  else
    let start := if reset then 0 else st.books.length
    let res := rangeQuery server start (start + PAGE_SIZE - 1)
    fetchBooksApply (FetchResult.ok res.1 res.2) reset st

/-- Clicking "Load More Books" until `hasMore` turns false, with a fuel
bound on the number of clicks (each successful page is non-empty, so
`server.length` clicks always suffice). -/
def loadAllBooks (server : List Book) : Nat → LibState → LibState
  | 0, st => st
  | fuel + 1, st =>
      if st.hasMore then loadAllBooks server fuel (fetchBooks server false false st) else st

/-! ## Local preference store (`src/src/app/library/page.tsx`) -/

/-- `toggleFavorite` (lines 175–185): the favorites `Set` keeps insertion
order, so it is modelled as a duplicate-free list; `delete` removes the
member, `add` appends a new one. -/
def toggleFavorite (favs : List String) (bookId : String) : List String :=
  if bookId ∈ favs then favs.erase bookId else favs ++ [bookId]

/-- `toggleBookmark` (lines 187–197), same shape as `toggleFavorite`. -/
def toggleBookmark (marks : List String) (bookId : String) : List String :=
  if bookId ∈ marks then marks.erase bookId else marks ++ [bookId]

/-- Browser local storage, as a map from key to stored string. -/
def LocalStorage : Type := String → Option String

/-- `localStorage.setItem(k, v)`. -/
def setItem (st : LocalStorage) (k v : String) : LocalStorage :=
  fun q => if q = k then some v else st q

/-- The storage key of the favorites effect (lines 83 and 100). -/
def favoritesKey : String := "library-favorites"

/-- The storage key of the bookmarks effect (lines 84 and 104). -/
def bookmarksKey : String := "library-bookmarks"

/-- `JSON.stringify` of an array of id strings (ids are plain uuid-like
strings, so no JSON escaping is involved). -/
def jsonArrayOfIds (l : List String) : String :=
  "[" ++ String.intercalate "," (l.map (fun s => "\"" ++ s ++ "\"")) ++ "]"

/-- The effect `localStorage.setItem('library-favorites',
JSON.stringify(Array.from(favorites)))` run whenever the favorites set
changes (line 100). -/
def saveFavorites (st : LocalStorage) (favs : List String) : LocalStorage :=
  setItem st favoritesKey (jsonArrayOfIds favs)

/-- The effect `localStorage.setItem('library-bookmarks',
JSON.stringify(Array.from(bookmarks)))` run whenever the bookmarks set
changes (line 104). -/
def saveBookmarks (st : LocalStorage) (marks : List String) : LocalStorage :=
  setItem st bookmarksKey (jsonArrayOfIds marks)

/-! ## Upload flow (`src/unnamed/part_001`) -/

/-- The fields of a browser `File` object the upload page reads. -/
structure JsFile where
  name : String := ""
  type : String := ""
  size : Nat := 0
deriving Repr, DecidableEq

/-- `onFileInput` (part_001 lines 74–85): given the currently selected file
and the file offered by the drag-drop or file-picker event, returns the new
selected-file state.  A `null` file returns early; a non-PDF media type or a
size above `50 * 1024 * 1024` bytes alerts and returns without touching the
state; otherwise the file is stored via `setFile(f)`. -/
def onFileInput (cur : Option JsFile) (f : Option JsFile) : Option JsFile :=
  match f with
  | none => cur
  | some f =>
      if f.type != "application/pdf" then cur
      else if f.size > 50 * 1024 * 1024 then cur
      else some f

/-- The upload form state read by `handleUpload`. -/
structure UploadForm where
  title : String := ""
  author : String := ""
  description : String := ""
  genreId : String := ""
  file : Option JsFile := none
deriving Repr, DecidableEq

/-- Collapse each maximal run of whitespace into a single `_`; the `prevWs`
flag records whether the previous character belonged to a run already
replaced.  This is `replace(/\s+/g, "_")`. -/
def collapseWsAux : Bool → List Char → List Char
  | _, [] => []
  | prevWs, c :: rest =>
      if c.isWhitespace then
        (if prevWs then [] else ['_']) ++ collapseWsAux true rest
      else c :: collapseWsAux false rest

/-- `const safeTitle = title.trim().replace(/\s+/g, "_").slice(0, 60)`
(part_001 line 138). -/
def safeTitle (title : String) : String :=
  String.mk ((collapseWsAux false (jsTrim title).toList).take 60)

/-- `const filePath = `${user.id}/${Date.now()}_${safeTitle}.pdf``
(part_001 line 139). -/
def filePath (userId : String) (nowMs : Nat) (title : String) : String :=
  userId ++ "/" ++ toString nowMs ++ "_" ++ safeTitle title ++ ".pdf"

/-- The storage provider's base URL for public objects of the `books`
bucket; `getPublicUrl` is provided by the backend SDK and resolves
deterministically to base-plus-path. -/
def storagePublicUrlBase : String :=
  "https://example.supabase.co/storage/v1/object/public/books/"

/-- `supabase.storage.from("books").getPublicUrl(filePath).data.publicUrl`
(part_001 lines 151–154), modelled from the storage provider's contract. -/
def getPublicUrl (path : String) : String :=
  storagePublicUrlBase ++ path

/-- The externally visible effects of the flow: the object-storage bucket
contents and the `books` table. -/
structure World where
  storage : List String
  books : List Book
deriving Repr, DecidableEq

/-- How a `handleUpload` invocation ends. -/
inductive UploadOutcome where
  | notLoggedIn
  | noFile
  | noTitle
  | noAuthor
  | noGenre
  | storageFailed
  | insertFailed
  | success
deriving Repr, DecidableEq

/-- The row object passed to `supabase.from("books").insert([...])`
(part_001 lines 157–168): trimmed title and author, the trimmed description
or `null` when it is empty (`description.trim() || null`), the resolved
public URL, the chosen genre, the file size, `status: "pending"`,
`is_public: true`, the session user as `upload_by` and the current time as
`upload_at`. -/
def insertedBook (uid : String) (form : UploadForm) (f : JsFile)
    (freshId : String) (fileUrl : String) (nowIso : Nat) : Book :=
  { id := freshId
    title := jsTrim form.title
    author := jsTrim form.author
    description :=
      if jsTrim form.description = "" then none else some (jsTrim form.description)
    file_url := fileUrl
    genre_id := form.genreId
    file_size_bytes := some f.size
    status := "pending"
    is_public := true
    upload_by := uid
    upload_at := nowIso
    updated_at := nowIso }

/-- `handleUpload` (part_001 lines 105–187).  The guards run in source
order (session, file, title, author, genre).  The `try` block then
(1) uploads the binary to storage at `filePath` — when that call errors it
throws, so nothing further runs; (2) resolves the public URL; (3) inserts
one `books` row with the trimmed fields, `status: "pending"`,
`is_public: true`, the resolved URL and the session user as `upload_by` —
when the insert errors it throws, and the `catch` block only alerts:
the already-stored object is left in place.  `storageOk` and `insertOk`
tell whether the two backend calls succeed; `freshId` is the row id the
database generates; `nowMs`/`nowIso` are the clock readings. -/
def handleUpload (user : Option String) (form : UploadForm) (w : World)
    (freshId : String) (nowMs nowIso : Nat) (storageOk insertOk : Bool) :
    World × UploadOutcome :=
  match user with
  | none => (w, UploadOutcome.notLoggedIn)
  | some uid =>
      match form.file with
      | none => (w, UploadOutcome.noFile)
      | some f =>
          if jsTrim form.title = "" then (w, UploadOutcome.noTitle)
          else if jsTrim form.author = "" then (w, UploadOutcome.noAuthor)
          else if form.genreId = "" then (w, UploadOutcome.noGenre)
          else
            let path := filePath uid nowMs form.title
            if storageOk = false then (w, UploadOutcome.storageFailed)
            else
              let w1 : World := { w with storage := w.storage ++ [path] }
              let fileUrl := getPublicUrl path
              if insertOk = false then (w1, UploadOutcome.insertFailed)
              else
                ({ w1 with
                    books := w1.books ++ [insertedBook uid form f freshId fileUrl nowIso] },
                 UploadOutcome.success)

/-! ## Admin moderation (`src/src/components/admin/BooksTab.tsx`) -/

/-- The observable result of one `updateStatus` call: the table contents,
the in-memory list, whether `fetchBooks()` was called again, and which
toast was shown. -/
structure UpdateStatusResult where
  db : List Book
  list : List Book
  refetched : Bool
  errorNotified : Bool
  successNotified : Bool
deriving Repr, DecidableEq

/-- `updateStatus(id, newStatus)` (BooksTab lines 165–198).  The update
payload always carries `status` and `updated_at`, and additionally
`approved_at` when the new status is `approved`; it is applied to the rows
with the given id.  When the backend call errors, an error toast is shown
and the function returns before touching the list.  On success, if the
status filter is anything other than `"all"` the book is dropped from the
in-memory list (`prev.filter(book => book.id !== id)`) with no refetch;
with the `"all"` filter `fetchBooks()` is called again instead, and
`refetchResult` is the row list that call returns. -/
def updateStatus (db list : List Book) (filter : String) (refetchResult : List Book)
    (id : String) (newStatus : String) (now : Nat) (mutationOk : Bool) :
    UpdateStatusResult :=
  if mutationOk = false then
    { db := db, list := list, refetched := false
      errorNotified := true, successNotified := false }
  else
    let db2 := db.map fun b =>
      if b.id == id then
        { b with
            status := newStatus
            updated_at := now
            approved_at := if newStatus == "approved" then some now else b.approved_at }
      else b
    if filter == "all" then
      { db := db2, list := refetchResult, refetched := true
        errorNotified := false, successNotified := true }
    else
      { db := db2, list := list.filter (fun b => !(b.id == id)), refetched := false
        errorNotified := false, successNotified := true }

/-- `toggleBookVisibility(id, currentVisibility)` (BooksTab lines 200–220):
sets `is_public` to the negation of the visibility the UI read from the row,
stamps `updated_at`, keyed by id. -/
def toggleBookVisibility (db : List Book) (id : String) (currentVisibility : Bool)
    (now : Nat) : List Book :=
  db.map fun b =>
    if b.id == id then { b with is_public := !currentVisibility, updated_at := now } else b

/-- A concrete pending book used to witness the admin moderation theorems. -/
def demoBook : Book := { id := "b1" }

/-- A concrete 13-row approved result set (just over one page) used to
witness the pagination theorem. -/
def demoServer : List Book :=
  [{ id := "b01" }, { id := "b02" }, { id := "b03" }, { id := "b04" },
   { id := "b05" }, { id := "b06" }, { id := "b07" }, { id := "b08" },
   { id := "b09" }, { id := "b10" }, { id := "b11" }, { id := "b12" },
   { id := "b13" }]

/-- A concrete upload form used to witness the upload theorems: the spec's
round-trip example inputs. -/
def demoForm : UploadForm :=
  { title := "Intro to Testing"
    author := "A. Author"
    description := ""
    genreId := "g1"
    file := some { name := "intro.pdf", type := "application/pdf", size := 2048 } }

/-! ## Theorems -/

/-- A resolved public URL is never the empty string: it extends the
storage provider's base URL. -/
theorem getPublicUrl_ne_empty (p : String) : getPublicUrl p ≠ "" := by
  intro h
  have hl := congrArg String.length h
  rw [getPublicUrl, String.length_append] at hl
  have hb : 0 < storagePublicUrlBase.length := by decide
  have h0 : String.length "" = 0 := by decide
  omega

/-- Claim C2: a file offered to the upload flow's file-selection handler
(`onFileInput`, src/unnamed/part_001 lines 74–85, reached from both the
drag-drop and the file-picker paths) is stored as the selected file exactly
when its declared media type is `application/pdf` and its size is at most
50 MiB; both checks run in the handler itself, at selection time, and a
rejected (or absent) file leaves the selected-file state unchanged. -/
theorem upload_file_selection (cur : Option JsFile) (f : JsFile) :
    (f.type = "application/pdf" ∧ f.size ≤ 50 * 1024 * 1024 →
      onFileInput cur (some f) = some f) ∧
    (¬(f.type = "application/pdf" ∧ f.size ≤ 50 * 1024 * 1024) →
      onFileInput cur (some f) = cur) ∧
    onFileInput cur none = cur := by
  refine ⟨?_, ?_, rfl⟩
  · rintro ⟨ht, hs⟩
    simp [onFileInput, ht, Nat.not_lt.2 hs]
  · intro h
    by_cases ht : f.type = "application/pdf"
    · have hs : ¬f.size ≤ 50 * 1024 * 1024 := fun hs => h ⟨ht, hs⟩
      simp [onFileInput, ht, Nat.lt_of_not_le hs]
    · simp [onFileInput, ht]

/-- Witness for C2: a 100-byte PDF is accepted. -/
theorem upload_file_selection_witness :
    ((JsFile.mk "a.pdf" "application/pdf" 100).type = "application/pdf" ∧
      (JsFile.mk "a.pdf" "application/pdf" 100).size ≤ 50 * 1024 * 1024) ∧
    onFileInput none (some (JsFile.mk "a.pdf" "application/pdf" 100)) =
      some (JsFile.mk "a.pdf" "application/pdf" 100) :=
  ⟨⟨rfl, by decide⟩,
   (upload_file_selection none (JsFile.mk "a.pdf" "application/pdf" 100)).1
     ⟨rfl, by decide⟩⟩

/-- Claim C8: when the awaited library range query fails, the `catch`
block of `fetchBooks` (library page lines 162–169) reports an empty result
(no rows are contributed — on a reset fetch the list is emptied, on a
load-more fetch it is left exactly as it was) and `hasMore = false`
("no more pages"); the outcome does not depend on which error occurred and
coincides with the outcome of a genuinely empty successful result with
count 0, so the caller cannot tell them apart beyond the log line; and the
single invocation is all that happens — no retry is issued. -/
theorem library_fetch_failure (e : String) (reset : Bool) (st : LibState) :
    fetchBooksApply (FetchResult.err e) reset st =
      { books := if reset then [] else st.books, hasMore := false } ∧
    (∀ e2 : String,
      fetchBooksApply (FetchResult.err e) reset st =
        fetchBooksApply (FetchResult.err e2) reset st) ∧
    fetchBooksApply (FetchResult.err e) reset st =
      fetchBooksApply (FetchResult.ok [] (some 0)) reset st ∧
    (∀ server : List Book,
      fetchBooks server true reset st = fetchBooksApply (FetchResult.err e) reset st) := by
  refine ⟨rfl, fun e2 => rfl, ?_, fun server => rfl⟩
  cases reset <;> simp [fetchBooksApply]

/-- Claim C4: in `handleUpload` (src/unnamed/part_001 lines 105–187), once
the guards pass, a failing storage upload throws before the insert runs, so
the world is unchanged — no book row and no stored object; a failing row
insert after a successful upload leaves the `books` table unchanged but the
stored object in place (the flow never deletes it) and merely reports the
failure. -/
theorem upload_failure_handling (uid : String) (form : UploadForm) (f : JsFile)
    (w : World) (freshId : String) (nowMs nowIso : Nat) (insertOk : Bool)
    (hf : form.file = some f) (ht : jsTrim form.title ≠ "")
    (ha : jsTrim form.author ≠ "") (hg : form.genreId ≠ "") :
    handleUpload (some uid) form w freshId nowMs nowIso false insertOk =
      (w, UploadOutcome.storageFailed) ∧
    (handleUpload (some uid) form w freshId nowMs nowIso true false).1.books = w.books ∧
    (handleUpload (some uid) form w freshId nowMs nowIso true false).1.storage =
      w.storage ++ [filePath uid nowMs form.title] ∧
    filePath uid nowMs form.title ∈
      (handleUpload (some uid) form w freshId nowMs nowIso true false).1.storage ∧
    (handleUpload (some uid) form w freshId nowMs nowIso true false).2 =
      UploadOutcome.insertFailed := by
  simp [handleUpload, hf, ht, ha, hg]

/-- Witness for C4: the concrete demo form against an empty world. -/
theorem upload_failure_handling_witness :
    (demoForm.file = some (JsFile.mk "intro.pdf" "application/pdf" 2048) ∧
      jsTrim demoForm.title ≠ "" ∧ jsTrim demoForm.author ≠ "" ∧ demoForm.genreId ≠ "") ∧
    (handleUpload (some "u1") demoForm (World.mk [] []) "b1" 5 6 false true =
        (World.mk [] [], UploadOutcome.storageFailed) ∧
      (handleUpload (some "u1") demoForm (World.mk [] []) "b1" 5 6 true false).1.books =
        (World.mk [] []).books ∧
      (handleUpload (some "u1") demoForm (World.mk [] []) "b1" 5 6 true false).1.storage =
        (World.mk [] []).storage ++ [filePath "u1" 5 demoForm.title] ∧
      filePath "u1" 5 demoForm.title ∈
        (handleUpload (some "u1") demoForm (World.mk [] []) "b1" 5 6 true false).1.storage ∧
      (handleUpload (some "u1") demoForm (World.mk [] []) "b1" 5 6 true false).2 =
        UploadOutcome.insertFailed) :=
  ⟨⟨rfl, by decide, by decide, by decide⟩,
   upload_failure_handling "u1" demoForm (JsFile.mk "intro.pdf" "application/pdf" 2048)
     (World.mk [] []) "b1" 5 6 true rfl (by decide) (by decide) (by decide)⟩

/-- Claim C5: submitting the upload flow with non-empty (trimmed) title and
author, a selected genre and a selected file, with both backend calls
succeeding, appends exactly one new book row; that row has status
`pending`, the non-empty public URL resolved for the stored object as its
`file_url`, the chosen genre id, and the authenticated user as uploader. -/
theorem upload_round_trip (uid : String) (form : UploadForm) (f : JsFile)
    (w : World) (freshId : String) (nowMs nowIso : Nat)
    (hf : form.file = some f) (ht : jsTrim form.title ≠ "")
    (ha : jsTrim form.author ≠ "") (hg : form.genreId ≠ "") :
    (handleUpload (some uid) form w freshId nowMs nowIso true true).2 =
      UploadOutcome.success ∧
    (handleUpload (some uid) form w freshId nowMs nowIso true true).1.books =
      w.books ++ [insertedBook uid form f freshId (getPublicUrl (filePath uid nowMs form.title)) nowIso] ∧
    (insertedBook uid form f freshId (getPublicUrl (filePath uid nowMs form.title)) nowIso).status = "pending" ∧
    (insertedBook uid form f freshId (getPublicUrl (filePath uid nowMs form.title)) nowIso).file_url =
      getPublicUrl (filePath uid nowMs form.title) ∧
    (insertedBook uid form f freshId (getPublicUrl (filePath uid nowMs form.title)) nowIso).file_url ≠ "" ∧
    (insertedBook uid form f freshId (getPublicUrl (filePath uid nowMs form.title)) nowIso).genre_id = form.genreId ∧
    (insertedBook uid form f freshId (getPublicUrl (filePath uid nowMs form.title)) nowIso).upload_by = uid := by
  refine ⟨?_, ?_, rfl, rfl, getPublicUrl_ne_empty _, rfl, rfl⟩
  · simp [handleUpload, hf, ht, ha, hg]
  · simp [handleUpload, hf, ht, ha, hg]

/-- Witness for C5: the spec's round-trip example — title
"Intro to Testing", author "A. Author", genre `g1`, a small valid PDF. -/
theorem upload_round_trip_witness :
    (demoForm.file = some (JsFile.mk "intro.pdf" "application/pdf" 2048) ∧
      jsTrim demoForm.title ≠ "" ∧ jsTrim demoForm.author ≠ "" ∧ demoForm.genreId ≠ "") ∧
    ((handleUpload (some "u1") demoForm (World.mk [] []) "b1" 5 6 true true).2 =
        UploadOutcome.success ∧
      (handleUpload (some "u1") demoForm (World.mk [] []) "b1" 5 6 true true).1.books =
        (World.mk [] []).books ++
          [insertedBook "u1" demoForm (JsFile.mk "intro.pdf" "application/pdf" 2048) "b1" (getPublicUrl (filePath "u1" 5 demoForm.title)) 6] ∧
      (insertedBook "u1" demoForm (JsFile.mk "intro.pdf" "application/pdf" 2048)
          "b1" (getPublicUrl (filePath "u1" 5 demoForm.title)) 6).status = "pending" ∧
      (insertedBook "u1" demoForm (JsFile.mk "intro.pdf" "application/pdf" 2048)
          "b1" (getPublicUrl (filePath "u1" 5 demoForm.title)) 6).file_url = getPublicUrl (filePath "u1" 5 demoForm.title) ∧
      (insertedBook "u1" demoForm (JsFile.mk "intro.pdf" "application/pdf" 2048)
          "b1" (getPublicUrl (filePath "u1" 5 demoForm.title)) 6).file_url ≠ "" ∧
      (insertedBook "u1" demoForm (JsFile.mk "intro.pdf" "application/pdf" 2048)
          "b1" (getPublicUrl (filePath "u1" 5 demoForm.title)) 6).genre_id = demoForm.genreId ∧
      (insertedBook "u1" demoForm (JsFile.mk "intro.pdf" "application/pdf" 2048)
          "b1" (getPublicUrl (filePath "u1" 5 demoForm.title)) 6).upload_by = "u1") :=
  ⟨⟨rfl, by decide, by decide, by decide⟩,
   upload_round_trip "u1" demoForm (JsFile.mk "intro.pdf" "application/pdf" 2048)
     (World.mk [] []) "b1" 5 6 rfl (by decide) (by decide) (by decide)⟩

/-- Books returned by the library query pass its base filter:
they are in the table, approved, and public. -/
theorem mem_filteredBooks (db : List Book) (g q : String) (b : Book)
    (hb : b ∈ filteredBooks db g q) :
    b ∈ db ∧ b.status = "approved" ∧ b.is_public = true := by
  simp only [filteredBooks] at hb
  have hq1 : b ∈ db.filter (fun x => x.status == "approved" && x.is_public) := by
    split_ifs at hb <;>
      first
        | exact hb
        | exact (List.mem_filter.1 hb).1
        | exact (List.mem_filter.1 (List.mem_filter.1 hb).1).1
  have hmem := List.mem_filter.1 hq1
  have hband := hmem.2
  simp only [Bool.and_eq_true, beq_iff_eq] at hband
  exact ⟨hmem.1, hband.1, hband.2⟩

/-- The order clause permutes the selected rows, so membership in the full
query reduces to membership in the filtered set. -/
theorem mem_booksQuery (db : List Book) (g q : String) (k : SortKey) (b : Book)
    (hb : b ∈ booksQuery db g q k) : b ∈ filteredBooks db g q := by
  cases k <;> simpa [booksQuery, applyOrder] using hb

/-- Claim C6: a successful `updateStatus(id, "approved")`
(BooksTab lines 165–198) sets every row with that id to status `approved`
and stamps `approved_at`; `updateStatus(id, "rejected")` sets the status to
`rejected` and writes no approval timestamp — the `approved_at` column of
every row is exactly what it was. -/
theorem admin_approve_reject (db list : List Book) (filter : String)
    (rr : List Book) (id : String) (now : Nat) :
    (∀ b ∈ (updateStatus db list filter rr id "approved" now true).db,
        b.id = id → b.status = "approved" ∧ b.approved_at = some now) ∧
    (∀ b ∈ (updateStatus db list filter rr id "rejected" now true).db,
        b.id = id → b.status = "rejected") ∧
    (updateStatus db list filter rr id "rejected" now true).db.map Book.approved_at =
      db.map Book.approved_at := by
  have hdb : ∀ ns : String, (updateStatus db list filter rr id ns now true).db =
      db.map (fun b =>
        if b.id == id then
          { b with
              status := ns
              updated_at := now
              approved_at := if ns == "approved" then some now else b.approved_at }
        else b) := by
    intro ns
    by_cases hfil : filter == "all" <;> simp [updateStatus, hfil]
  refine ⟨?_, ?_, ?_⟩
  · intro b hb hbid
    rw [hdb] at hb
    rcases List.mem_map.1 hb with ⟨a, _, rfl⟩
    by_cases h : a.id = id
    · simp [h]
    · simp [h] at hbid
  · intro b hb hbid
    rw [hdb] at hb
    rcases List.mem_map.1 hb with ⟨a, _, rfl⟩
    by_cases h : a.id = id
    · simp [h]
    · simp [h] at hbid
  · rw [hdb, List.map_map]
    apply List.map_congr_left
    intro a _
    by_cases h : a.id = id <;> simp [h]

/-- Witness for C6: approving the demo pending book. -/
theorem admin_approve_reject_witness :
    ({ demoBook with status := "approved", updated_at := 9, approved_at := some 9 } :
        Book).status = "approved" ∧
    ({ demoBook with status := "approved", updated_at := 9, approved_at := some 9 } :
        Book).approved_at = some 9 :=
  (admin_approve_reject [demoBook] [] "pending" [] "b1" 9).1
    { demoBook with status := "approved", updated_at := 9, approved_at := some 9 }
    (by decide) (by decide)

/-- Claim C7: after a successful status mutation in `updateStatus`
(BooksTab lines 187–193), a single-status filter drops the mutated book
from the in-memory list with no refetch, while the `"all"` filter triggers
a refetch whose result replaces the list; a failed mutation leaves both the
table and the in-memory list untouched and only shows the error
notification. -/
theorem admin_reconciliation (db list : List Book) (filter : String) (rr : List Book)
    (id newStatus : String) (now : Nat) :
    (filter ≠ "all" →
      (updateStatus db list filter rr id newStatus now true).list =
          list.filter (fun b => !(b.id == id)) ∧
      (updateStatus db list filter rr id newStatus now true).refetched = false) ∧
    (filter = "all" →
      (updateStatus db list filter rr id newStatus now true).list = rr ∧
      (updateStatus db list filter rr id newStatus now true).refetched = true) ∧
    ((updateStatus db list filter rr id newStatus now false).list = list ∧
      (updateStatus db list filter rr id newStatus now false).db = db ∧
      (updateStatus db list filter rr id newStatus now false).refetched = false ∧
      (updateStatus db list filter rr id newStatus now false).errorNotified = true ∧
      (updateStatus db list filter rr id newStatus now false).successNotified = false) := by
  refine ⟨fun h => ?_, fun h => ?_, by simp [updateStatus]⟩
  · simp [updateStatus, h]
  · simp [updateStatus, h]

/-- Witness for C7: approving the demo book while the filter shows only
pending books removes it from the list without a refetch. -/
theorem admin_reconciliation_witness :
    (updateStatus [demoBook] [demoBook] "pending" [] "b1" "approved" 9 true).list =
        [demoBook].filter (fun b => !(b.id == "b1")) ∧
    (updateStatus [demoBook] [demoBook] "pending" [] "b1" "approved" 9 true).refetched =
      false :=
  (admin_reconciliation [demoBook] [demoBook] "pending" [] "b1" "approved" 9).1
    (by decide)

/-- Claim C9: toggling a book's visibility twice through
`toggleBookVisibility` (BooksTab lines 200–220) — the second call receiving
the refetched, already-flipped flag — restores every row's `is_public` flag
to its original value; and any book whose `is_public` flag is `false` is
absent from the public library listing query for every genre filter, search
text and sort key, whatever its moderation status, because the query
filters on `status = 'approved'` and `is_public = true`. -/
theorem visibility_toggle_roundtrip (db : List Book) (id : String) (v : Bool)
    (n1 n2 : Nat) (g q : String) (k : SortKey)
    (hv : ∀ b ∈ db, b.id = id → b.is_public = v) :
    (toggleBookVisibility (toggleBookVisibility db id v n1) id (!v) n2).map
        Book.is_public = db.map Book.is_public ∧
    (∀ b : Book, b.is_public = false → b ∉ booksQuery db g q k) := by
  constructor
  · unfold toggleBookVisibility
    rw [List.map_map, List.map_map]
    apply List.map_congr_left
    intro a ha
    by_cases h : a.id = id
    · simp [Function.comp, h, hv a ha h]
    · simp [Function.comp, h]
  · intro b hb hmem
    have := (mem_filteredBooks db g q b (mem_booksQuery db g q k b hmem)).2.2
    rw [hb] at this
    exact Bool.false_ne_true this

/-- Witness for C9: a private approved book (flag read as `true`, toggled
twice) and its exclusion from the concrete listing query. -/
theorem visibility_toggle_roundtrip_witness :
    ((toggleBookVisibility (toggleBookVisibility [demoBook] "b1" true 1) "b1"
        (!true) 2).map Book.is_public = [demoBook].map Book.is_public) ∧
    ({ demoBook with status := "approved", is_public := false } : Book) ∉
      booksQuery [{ demoBook with status := "approved", is_public := false }] "" ""
        SortKey.newest :=
  ⟨(visibility_toggle_roundtrip [demoBook] "b1" true 1 2 "" "" SortKey.newest
      (by decide)).1,
   (visibility_toggle_roundtrip [{ demoBook with status := "approved", is_public := false }]
      "b1" false 1 2 "" "" SortKey.newest (by decide)).2
     { demoBook with status := "approved", is_public := false } rfl⟩

/-- Claim C3: the rows every public library fetch returns are ordered
according to the active sort key — `upload_at` descending for `newest`,
ascending for `oldest`, title ascending for `az` — while `popular`, though
offered in the sort select, attaches no order clause: the query falls
through and returns the filtered rows unordered. -/
theorem library_sort_order (db : List Book) (g q : String) :
    List.Sorted (fun a b : Book => b.upload_at ≤ a.upload_at)
      (booksQuery db g q SortKey.newest) ∧
    List.Sorted (fun a b : Book => a.upload_at ≤ b.upload_at)
      (booksQuery db g q SortKey.oldest) ∧
    List.Sorted (fun a b : Book => a.title ≤ b.title)
      (booksQuery db g q SortKey.az) ∧
    "popular" ∈ sortOptions ∧
    (∀ l : List Book, applyOrder SortKey.popular l = l) ∧
    booksQuery db g q SortKey.popular = filteredBooks db g q := by
  refine ⟨?_, ?_, ?_, by simp [sortOptions], fun l => rfl, rfl⟩
  · haveI : IsTotal Book (fun a b : Book => b.upload_at ≤ a.upload_at) :=
      ⟨fun a b => Nat.le_total b.upload_at a.upload_at⟩
    haveI : IsTrans Book (fun a b : Book => b.upload_at ≤ a.upload_at) :=
      ⟨fun _ _ _ hab hbc => Nat.le_trans hbc hab⟩
    exact List.sorted_insertionSort _ _
  · haveI : IsTotal Book (fun a b : Book => a.upload_at ≤ b.upload_at) :=
      ⟨fun a b => Nat.le_total a.upload_at b.upload_at⟩
    haveI : IsTrans Book (fun a b : Book => a.upload_at ≤ b.upload_at) :=
      ⟨fun _ _ _ hab hbc => Nat.le_trans hab hbc⟩
    exact List.sorted_insertionSort _ _
  · haveI : IsTotal Book (fun a b : Book => a.title ≤ b.title) :=
      ⟨fun a b => le_total a.title b.title⟩
    haveI : IsTrans Book (fun a b : Book => a.title ≤ b.title) :=
      ⟨fun _ _ _ hab hbc => le_trans hab hbc⟩
    exact List.sorted_insertionSort _ _

/-- `toggleBookmark` has the same body as `toggleFavorite`. -/
theorem toggleBookmark_eq_toggleFavorite : toggleBookmark = toggleFavorite := rfl

/-- Toggling an id that is not in the set adds it. -/
theorem toFinset_toggleFavorite_not_mem (favs : List String) (b : String)
    (h : b ∉ favs) :
    (toggleFavorite favs b).toFinset = favs.toFinset ∪ {b} := by
  simp [toggleFavorite, h, List.toFinset_append]

/-- Toggling an id that is in the set removes it. -/
theorem toFinset_toggleFavorite_mem (favs : List String) (b : String)
    (hnd : favs.Nodup) (h : b ∈ favs) :
    (toggleFavorite favs b).toFinset = favs.toFinset \ {b} := by
  simp only [toggleFavorite, if_pos h]
  ext x
  simp [hnd.mem_erase_iff, and_comm]

/-- Toggling the same id twice restores the set. -/
theorem toggleFavorite_involutive (favs : List String) (b : String)
    (hnd : favs.Nodup) :
    (toggleFavorite (toggleFavorite favs b) b).toFinset = favs.toFinset := by
  by_cases h : b ∈ favs
  · have h1 : toggleFavorite favs b = favs.erase b := if_pos h
    have h2 : b ∉ favs.erase b := fun hc => ((hnd.mem_erase_iff).1 hc).1 rfl
    rw [h1, toggleFavorite, if_neg h2, List.toFinset_append]
    ext x
    by_cases hx : x = b <;> simp [hnd.mem_erase_iff, hx, h]
  · have h1 : toggleFavorite favs b = favs ++ [b] := if_neg h
    have hbmem : b ∈ favs ++ [b] := by simp
    rw [h1, toggleFavorite, if_pos hbmem, List.erase_append_right _ h]
    simp

/-- Claim C10: for any current favorites (resp. bookmarks) set and any book
id, the toggle produces the union with the id when it is absent and the
difference when it is present, so toggling twice restores the original set;
and after each toggle the persistence effect writes the updated set, as a
JSON array, under its fixed localStorage key, touching no other key. -/
theorem preferences_toggle (favs marks : List String) (b : String)
    (st : LocalStorage) (hf : favs.Nodup) (hm : marks.Nodup) :
    (b ∉ favs → (toggleFavorite favs b).toFinset = favs.toFinset ∪ {b}) ∧
    (b ∈ favs → (toggleFavorite favs b).toFinset = favs.toFinset \ {b}) ∧
    (toggleFavorite (toggleFavorite favs b) b).toFinset = favs.toFinset ∧
    (b ∉ marks → (toggleBookmark marks b).toFinset = marks.toFinset ∪ {b}) ∧
    (b ∈ marks → (toggleBookmark marks b).toFinset = marks.toFinset \ {b}) ∧
    (toggleBookmark (toggleBookmark marks b) b).toFinset = marks.toFinset ∧
    saveFavorites st (toggleFavorite favs b) favoritesKey =
      some (jsonArrayOfIds (toggleFavorite favs b)) ∧
    (∀ k : String, k ≠ favoritesKey → saveFavorites st (toggleFavorite favs b) k = st k) ∧
    saveBookmarks st (toggleBookmark marks b) bookmarksKey =
      some (jsonArrayOfIds (toggleBookmark marks b)) ∧
    (∀ k : String, k ≠ bookmarksKey → saveBookmarks st (toggleBookmark marks b) k = st k) := by
  rw [toggleBookmark_eq_toggleFavorite]
  refine ⟨toFinset_toggleFavorite_not_mem favs b,
    toFinset_toggleFavorite_mem favs b hf,
    toggleFavorite_involutive favs b hf,
    toFinset_toggleFavorite_not_mem marks b,
    toFinset_toggleFavorite_mem marks b hm,
    toggleFavorite_involutive marks b hm,
    by simp [saveFavorites, setItem],
    fun k hk => by simp [saveFavorites, setItem, hk],
    by simp [saveBookmarks, setItem],
    fun k hk => by simp [saveBookmarks, setItem, hk]⟩

/-- Witness for C10: toggling "y" into `["x"]` twice restores the set, and
the favorites write lands under the fixed key. -/
theorem preferences_toggle_witness :
    (List.Nodup ["x"] ∧ List.Nodup ([] : List String)) ∧
    ((toggleFavorite (toggleFavorite ["x"] "y") "y").toFinset =
        List.toFinset ["x"] ∧
      saveFavorites (fun _ => none) (toggleFavorite ["x"] "y") favoritesKey =
        some (jsonArrayOfIds (toggleFavorite ["x"] "y"))) :=
  ⟨⟨by decide, by decide⟩,
   (preferences_toggle ["x"] [] "y" (fun _ => none) (by decide) (by decide)).2.2.1,
   (preferences_toggle ["x"] [] "y" (fun _ => none) (by decide)
       (by decide)).2.2.2.2.2.2.1⟩

/-- A reset fetch replaces the list with the first page, whatever the
previous state was. -/
theorem fetchBooks_reset (server : List Book) (st : LibState) :
    fetchBooks server false true st =
      { books := server.take PAGE_SIZE
        hasMore := decide ((server.take PAGE_SIZE).length < server.length) } := by
  simp [fetchBooks, rangeQuery, fetchBooksApply, PAGE_SIZE]

/-- A load-more fetch appends the next contiguous page, starting at the
current list length. -/
theorem fetchBooks_loadMore (server : List Book) (st : LibState) :
    fetchBooks server false false st =
      { books := st.books ++ (server.drop st.books.length).take PAGE_SIZE
        hasMore := decide (st.books.length +
          ((server.drop st.books.length).take PAGE_SIZE).length < server.length) } := by
  have h12 : ∀ n : Nat, n + PAGE_SIZE - 1 + 1 - n = PAGE_SIZE := by
    intro n
    simp only [PAGE_SIZE]
    omega
  simp [fetchBooks, rangeQuery, fetchBooksApply, h12]

/-- Taking `m` elements is the same as taking `min m length`. -/
theorem take_min_length (l : List Book) (m : Nat) :
    l.take m = l.take (min m l.length) := by
  by_cases h : m ≤ l.length
  · rw [min_eq_left h]
  · rw [min_eq_right (le_of_not_le h), List.take_length,
      List.take_of_length_le (le_of_not_le h)]

/-- Loop invariant of repeated "load more": when the list is the first `k`
rows of the result set and `hasMore` reflects `k < total`, enough clicks
drain the whole result set and clear `hasMore`. -/
theorem loadAllBooks_inv (server : List Book) :
    ∀ (fuel : Nat) (st : LibState) (k : Nat),
      st.books = server.take k → k ≤ server.length →
      st.hasMore = decide (k < server.length) →
      server.length ≤ k + fuel →
      (loadAllBooks server fuel st).books = server ∧
      (loadAllBooks server fuel st).hasMore = false := by
  intro fuel
  induction fuel with
  | zero =>
    intro st k hb hk hm hf
    have hkN : k = server.length := by omega
    simp only [loadAllBooks]
    constructor
    · rw [hb, hkN, List.take_length]
    · rw [hm, hkN]; simp
  | succ n ih =>
    intro st k hb hk hm hf
    by_cases hmore : st.hasMore
    · have hklt : k < server.length := by
        rw [hm] at hmore
        exact of_decide_eq_true hmore
      simp only [loadAllBooks, if_pos hmore]
      have hlen : st.books.length = k := by
        rw [hb, List.length_take]
        omega
      have hb2 : (fetchBooks server false false st).books =
          server.take (min (k + PAGE_SIZE) server.length) := by
        rw [fetchBooks_loadMore, hlen, hb, ← List.take_add, ← take_min_length]
      have hm2 : (fetchBooks server false false st).hasMore =
          decide (min (k + PAGE_SIZE) server.length < server.length) := by
        rw [fetchBooks_loadMore]
        simp only [hlen]
        have hl2 : ((server.drop k).take PAGE_SIZE).length =
            min PAGE_SIZE (server.length - k) := by
          rw [List.length_take, List.length_drop]
        rw [hl2]
        have harith : k + min PAGE_SIZE (server.length - k) =
            min (k + PAGE_SIZE) server.length := by omega
        rw [harith]
      apply ih (fetchBooks server false false st) (min (k + PAGE_SIZE) server.length)
        hb2 (by omega) hm2 ?_
      have hps : 0 < PAGE_SIZE := by decide
      omega
    · have hknlt : ¬k < server.length := by
        rw [hm] at hmore
        intro hc
        exact hmore (decide_eq_true hc)
      have hkN : k = server.length := by omega
      simp only [loadAllBooks, if_neg hmore]
      constructor
      · rw [hb, hkN, List.take_length]
      · rw [hm, hkN]; simp

/-- Claim C1: public listing pagination (library page lines 112–170).  The
page size is fixed at 12; the reset fetch issued after any change to the
search text, genre or sort key replaces the list by the first page whatever
the previous state held; every "load more" requests the contiguous range
starting at the current list length and appends the returned rows; and
clicking "load more" until `hasMore` clears (at most one click per row)
yields exactly the full result set — its size equals the exact count
reported with the first page, and when the result set's ids are distinct
the accumulated list contains no duplicate ids. -/
theorem library_pagination (server : List Book) (st0 : LibState)
    (hnd : (server.map Book.id).Nodup) :
    PAGE_SIZE = 12 ∧
    (fetchBooks server false true st0).books = server.take PAGE_SIZE ∧
    (∀ st : LibState, (fetchBooks server false false st).books =
      st.books ++ (server.drop st.books.length).take PAGE_SIZE) ∧
    (loadAllBooks server server.length (fetchBooks server false true st0)).books =
      server ∧
    (loadAllBooks server server.length (fetchBooks server false true st0)).hasMore =
      false ∧
    (loadAllBooks server server.length
        (fetchBooks server false true st0)).books.length = server.length ∧
    ((loadAllBooks server server.length
        (fetchBooks server false true st0)).books.map Book.id).Nodup := by
  have hfull := loadAllBooks_inv server server.length
    (fetchBooks server false true st0) (min PAGE_SIZE server.length)
    (by rw [fetchBooks_reset]; exact take_min_length server PAGE_SIZE)
    (by omega)
    (by
      rw [fetchBooks_reset]
      simp only [List.length_take])
    (by omega)
  refine ⟨rfl, by rw [fetchBooks_reset], fun st => by rw [fetchBooks_loadMore], hfull.1,
    hfull.2, by rw [hfull.1], by rw [hfull.1]; exact hnd⟩

/-- Witness for C1: exhausting "load more" over a 13-row result set yields
all 13 rows and clears `hasMore`. -/
theorem library_pagination_witness :
    (demoServer.map Book.id).Nodup ∧
    ((loadAllBooks demoServer demoServer.length
        (fetchBooks demoServer false true (LibState.mk [] true))).books = demoServer ∧
      (loadAllBooks demoServer demoServer.length
        (fetchBooks demoServer false true (LibState.mk [] true))).hasMore = false) :=
  ⟨by decide,
   (library_pagination demoServer (LibState.mk [] true) (by decide)).2.2.2.1,
   (library_pagination demoServer (LibState.mk [] true) (by decide)).2.2.2.2.1⟩
